import Mathlib

/-
Verification of the pretty-console library (src/lib.rs): a shallow
embedding of its Color / Attribute / Style / Console types and of the
rendering functions, followed by theorems settling the specified
properties of the ANSI SGR encoding.

Conventions of the embedding:
- Rust u8 values become Nat (the claims bound them by 256 where the
  8-bit range matters); no arithmetic is performed on them, they are
  only formatted in decimal, which toString does exactly as Rust's
  Display for u8 does.
- Rust String and &str become String; Vec<Attribute> becomes
  List Attribute, with Vec::push appending at the end.
- A fallible byte sink (Rust's std::io::Write) is modelled as a state
  type sigma with a write function sigma -> String -> Except eps sigma;
  the write! calls with the ? operator become explicit matches that
  propagate the error, exactly as ? does.
- .unwrap() on a Result (used by print/println) panics on Err; a panic
  is modelled as Option.none: the function returns no error value to
  its caller.
-/

namespace PrettyConsole

/-- Embeds enum Color (lib.rs lines 3-7): a named 8-bit palette index or
a 24-bit RGB triple. -/
inductive Color where
  | Named (n : Nat)
  | RGB (r g b : Nat)
deriving DecidableEq, Repr

/-- Embeds Color::to_fg_code (lib.rs lines 27-32). -/
def Color.to_fg_code : Color → String
  | .Named n => "38;5;" ++ toString n
  | .RGB r g b => "38;2;" ++ toString r ++ ";" ++ toString g ++ ";" ++ toString b

/-- Embeds Color::to_bg_code (lib.rs lines 34-39). -/
def Color.to_bg_code : Color → String
  | .Named n => "48;5;" ++ toString n
  | .RGB r g b => "48;2;" ++ toString r ++ ";" ++ toString g ++ ";" ++ toString b

/-- Embeds enum Attribute (lib.rs lines 42-52). -/
inductive Attribute where
  | Bold
  | Dim
  | Italic
  | Underline
  | Blink
  | Reverse
  | Hidden
  | Strikethrough
deriving DecidableEq, Repr

/-- Embeds Attribute::to_code (lib.rs lines 55-66). -/
def Attribute.to_code : Attribute → String
  | .Bold => "1"
  | .Dim => "2"
  | .Italic => "3"
  | .Underline => "4"
  | .Blink => "5"
  | .Reverse => "7"
  | .Hidden => "8"
  | .Strikethrough => "9"

/-- Embeds struct Style (lib.rs lines 69-74). -/
structure Style where
  foreground : Option Color := none
  background : Option Color := none
  attributes : List Attribute := []
deriving DecidableEq, Repr

/-- Embeds Style::new / Style::default (lib.rs lines 77-79). -/
def Style.new : Style := {}

/-- Embeds Style::fg (lib.rs lines 81-84). -/
def Style.fg (s : Style) (color : Color) : Style :=
  { s with foreground := some color }

/-- Embeds Style::bg (lib.rs lines 86-89). -/
def Style.bg (s : Style) (color : Color) : Style :=
  { s with background := some color }

/-- Embeds Style::attr (lib.rs lines 91-94): Vec::push appends at the
end of the attribute list. -/
def Style.attr (s : Style) (a : Attribute) : Style :=
  { s with attributes := s.attributes ++ [a] }

/-- Embeds Style::bold (lib.rs lines 96-98). -/
def Style.bold (s : Style) : Style := s.attr .Bold

/-- Embeds Style::dim (lib.rs lines 100-102). -/
def Style.dim (s : Style) : Style := s.attr .Dim

/-- Embeds Style::italic (lib.rs lines 104-106). -/
def Style.italic (s : Style) : Style := s.attr .Italic

/-- Embeds Style::underline (lib.rs lines 108-110). -/
def Style.underline (s : Style) : Style := s.attr .Underline

/-- Embeds Style::blink (lib.rs lines 112-114). -/
def Style.blink (s : Style) : Style := s.attr .Blink

/-- Embeds Style::reverse (lib.rs lines 116-118). -/
def Style.reverse (s : Style) : Style := s.attr .Reverse

/-- Embeds Style::hidden (lib.rs lines 120-122). -/
def Style.hidden (s : Style) : Style := s.attr .Hidden

/-- Embeds Style::strikethrough (lib.rs lines 124-126). -/
def Style.strikethrough (s : Style) : Style := s.attr .Strikethrough

/-- Embeds Style::to_ansi_start (lib.rs lines 128-149), the default
build without the no-color feature: the codes Vec is built by pushing
each attribute code in order, then the foreground code if set, then the
background code if set; an empty Vec yields the empty string, otherwise
the codes are joined with a semicolon and wrapped in ESC [ ... m. -/
def Style.to_ansi_start (s : Style) : String :=
  let codes : List String := s.attributes.foldl (fun cs a => cs ++ [a.to_code]) []
  let codes : List String :=
    match s.foreground with
    | some fg => codes ++ [fg.to_fg_code]
    | none => codes
  let codes : List String :=
    match s.background with
    | some bg => codes ++ [bg.to_bg_code]
    | none => codes
  if codes.isEmpty then "" else "\x1b[" ++ String.intercalate ";" codes ++ "m"

/-- Embeds Style::to_ansi_start under the no-color feature
(lib.rs lines 151-154): always the empty string. -/
def Style.to_ansi_start_noColor (_ : Style) : String := ""

/-- Embeds struct Console (lib.rs lines 157-161). -/
structure Console where
  text : String
  style : Style
deriving DecidableEq, Repr

/-- Embeds Console::new (lib.rs lines 164-169). -/
def Console.new (text : String) : Console :=
  { text := text, style := Style.new }

/-- Embeds Console::new_with_style (lib.rs lines 171-176). -/
def Console.new_with_style (text : String) (style : Style) : Console :=
  { text := text, style := style }

/-- Embeds Console::with_text (lib.rs lines 178-183): same style, new
text payload. -/
def Console.with_text (c : Console) (text : String) : Console :=
  { text := text, style := c.style }

/-- Embeds Console::fg (lib.rs lines 186-191). -/
def Console.fg (c : Console) (color : Color) : Console :=
  { c with style := c.style.fg color }

/-- Embeds Console::bg (lib.rs lines 193-198). -/
def Console.bg (c : Console) (color : Color) : Console :=
  { c with style := c.style.bg color }

/-- Embeds Console::attr (lib.rs lines 338-343). -/
def Console.attr (c : Console) (a : Attribute) : Console :=
  { c with style := c.style.attr a }

/-- Embeds Console::bold (lib.rs lines 345-350). -/
def Console.bold (c : Console) : Console :=
  { c with style := c.style.bold }

/-- Embeds Console::write_to (lib.rs lines 413-423). The generic sink
W: std::io::Write is a state sigma together with a write function that
either returns the new state or an I/O error; each write! ...? in the
source is a match propagating the error. The two conditional writes are
skipped when the ANSI start code is empty, as in the source. -/
def Console.write_to {σ ε : Type} (wr : σ → String → Except ε σ)
    (c : Console) (w : σ) : Except ε σ :=
  let ansi_code := c.style.to_ansi_start
  match (if ansi_code.isEmpty then Except.ok w else wr w ansi_code) with
  | .error e => .error e
  | .ok w1 =>
    match wr w1 c.text with
    | .error e => .error e
    | .ok w2 =>
      match (if ansi_code.isEmpty then Except.ok w2 else wr w2 "\x1b[0m") with
      | .error e => .error e
      | .ok w3 => .ok w3

/-- Embeds the Display impl for Console (lib.rs lines 430-442): the
same three sequential writes as write_to, into a string formatter that
cannot fail, so the result is the concatenation of the conditionally
written pieces. -/
def Console.displayFmt (c : Console) : String :=
  let ansi_code := c.style.to_ansi_start
  (if ansi_code.isEmpty then "" else ansi_code)
    ++ c.text
    ++ (if ansi_code.isEmpty then "" else "\x1b[0m")

/-- Embeds Console::to_string (lib.rs lines 425-427): format! via the
Display impl. -/
def Console.to_string (c : Console) : String := c.displayFmt

/-- Embeds the Display impl as compiled under the no-color feature,
where Style::to_ansi_start is the always-empty variant. -/
def Console.displayFmtNoColor (c : Console) : String :=
  let ansi_code := Style.to_ansi_start_noColor c.style
  (if ansi_code.isEmpty then "" else ansi_code)
    ++ c.text
    ++ (if ansi_code.isEmpty then "" else "\x1b[0m")

/-- Embeds Console::write_to as compiled under the no-color feature,
where Style::to_ansi_start is the always-empty variant. -/
def Console.write_toNoColor {σ ε : Type} (wr : σ → String → Except ε σ)
    (c : Console) (w : σ) : Except ε σ :=
  let ansi_code := Style.to_ansi_start_noColor c.style
  match (if ansi_code.isEmpty then Except.ok w else wr w ansi_code) with
  | .error e => .error e
  | .ok w1 =>
    match wr w1 c.text with
    | .error e => .error e
    | .ok w2 =>
      match (if ansi_code.isEmpty then Except.ok w2 else wr w2 "\x1b[0m") with
      | .error e => .error e
      | .ok w3 => .ok w3

/-- Embeds Console::print (lib.rs lines 402-405): write_to followed by
.unwrap(), which panics when the write fails; Option.none models the
panic, which carries no error value back to the caller. -/
def Console.print {σ ε : Type} (wr : σ → String → Except ε σ)
    (c : Console) (w : σ) : Option σ :=
  match c.write_to wr w with
  | .ok w1 => some w1
  | .error _ => none

/-- Embeds Console::println (lib.rs lines 407-411): like print, then a
newline is written, each step unwrapped (panicking on error). -/
def Console.println {σ ε : Type} (wr : σ → String → Except ε σ)
    (c : Console) (w : σ) : Option σ :=
  match c.write_to wr w with
  | .ok w1 =>
    match wr w1 "\n" with
    | .ok w2 => some w2
    | .error _ => none
  | .error _ => none

/-- The in-memory sink used by the tests (a byte buffer that grows and
never fails): state is the accumulated string, writing appends. -/
def memWriter : String → String → Except Unit String :=
  fun buf s => .ok (buf ++ s)

/-- The declarative form of the code list Style::to_ansi_start builds:
attribute codes in insertion order, then the optional foreground code,
then the optional background code. -/
def Style.codeList (s : Style) : List String :=
  s.attributes.map Attribute.to_code
    ++ (s.foreground.map Color.to_fg_code).toList
    ++ (s.background.map Color.to_bg_code).toList

/-- Adding an attribute n times through Style::attr. -/
def Style.attrN (s : Style) (a : Attribute) : Nat → Style
  | 0 => s
  | n + 1 => (s.attrN a n).attr a

theorem foldl_push_eq_map (l : List Attribute) (init : List String) :
    l.foldl (fun cs a => cs ++ [a.to_code]) init
      = init ++ l.map Attribute.to_code := by
  induction l generalizing init with
  | nil => simp
  | cons a l ih => simp [List.foldl_cons, ih]

theorem to_ansi_start_eq_codeList (s : Style) :
    s.to_ansi_start =
      if s.codeList.isEmpty then ""
      else "\x1b[" ++ String.intercalate ";" s.codeList ++ "m" := by
  unfold Style.to_ansi_start Style.codeList
  rw [foldl_push_eq_map]
  cases s.foreground <;> cases s.background <;> simp [List.append_assoc]

theorem empty_string_isEmpty : "".isEmpty = true := rfl

theorem write_to_memWriter_eq (c : Console) (buf : String) :
    Console.write_to memWriter c buf = .ok (buf ++ Console.displayFmt c) := by
  unfold Console.write_to Console.displayFmt memWriter
  cases h : (c.style.to_ansi_start).isEmpty <;>
    simp [h, String.append_assoc]

theorem codeList_attr_count (s : Style) (a : Attribute) :
    (Style.codeList (s.attr a)).count a.to_code
      = (Style.codeList s).count a.to_code + 1 := by
  simp [Style.codeList, Style.attr, List.count_append]
  omega

/-- Claim C1: rendering a Console, through to_string and through
write_to into an in-memory sink, yields exactly the text when the
style's ANSI start code is empty, and start code, then the text
verbatim, then the 4-byte SGR reset ESC[0m when it is non-empty, in
which case the output starts with ESC[ and ends with ESC[0m. -/
theorem C1_render_shape (c : Console) :
    (Style.to_ansi_start c.style = "" →
      Console.to_string c = c.text ∧
      Console.write_to memWriter c "" = .ok c.text) ∧
    (Style.to_ansi_start c.style ≠ "" →
      Console.to_string c
        = Style.to_ansi_start c.style ++ c.text ++ "\x1b[0m" ∧
      Console.write_to memWriter c ""
        = .ok (Style.to_ansi_start c.style ++ c.text ++ "\x1b[0m") ∧
      ∃ codes : String,
        Console.to_string c
          = "\x1b[" ++ codes ++ "m" ++ c.text ++ "\x1b[0m") := by
  constructor
  · intro h
    have hfmt : Console.to_string c = c.text := by
      simp [Console.to_string, Console.displayFmt, h, empty_string_isEmpty,
        String.append_empty]
    refine ⟨hfmt, ?_⟩
    rw [write_to_memWriter_eq c "", show Console.displayFmt c = c.text from hfmt,
      String.empty_append]
  · intro h
    have hne : (Style.to_ansi_start c.style).isEmpty = false := by
      cases hh : (Style.to_ansi_start c.style).isEmpty
      · rfl
      · exact absurd ((String.isEmpty_iff _).mp hh) h
    have hfmt : Console.to_string c
        = Style.to_ansi_start c.style ++ c.text ++ "\x1b[0m" := by
      simp [Console.to_string, Console.displayFmt, hne]
    refine ⟨hfmt, ?_, ?_⟩
    · rw [write_to_memWriter_eq c "",
        show Console.displayFmt c = _ from hfmt, String.empty_append]
    · have hc := to_ansi_start_eq_codeList c.style
      cases he : (Style.codeList c.style).isEmpty
      · rw [he] at hc
        simp only [Bool.false_eq_true, if_false] at hc
        exact ⟨String.intercalate ";" (Style.codeList c.style),
          by rw [hfmt, hc]⟩
      · rw [he] at hc
        simp only [if_true] at hc
        exact absurd hc h

/-- Claim C1 witness: the empty-style branch evaluated at text "hi"
with the default style, and the non-empty branch evaluated at the same
text with a bold style. -/
theorem C1_render_shape_witness :
    Console.to_string (Console.new "hi") = (Console.new "hi").text ∧
    Console.to_string (Console.bold (Console.new "hi"))
      = Style.to_ansi_start (Console.bold (Console.new "hi")).style
          ++ (Console.bold (Console.new "hi")).text ++ "\x1b[0m" :=
  ⟨((C1_render_shape (Console.new "hi")).1 rfl).1,
   ((C1_render_shape (Console.bold (Console.new "hi"))).2 (by decide)).1⟩

/-- Claim C2: Style::to_ansi_start builds the code list in exactly this
order: each attribute code in the order the attributes were added, then
the foreground code if a foreground is set, then the background code if
a background is set; if the list is empty the result is the empty
string, otherwise the codes joined with ";" and wrapped as ESC [ codes
m where ESC is byte 0x1B. -/
theorem C2_to_ansi_start_structure (s : Style) :
    Style.to_ansi_start s =
      if s.attributes.map Attribute.to_code
          ++ (s.foreground.map Color.to_fg_code).toList
          ++ (s.background.map Color.to_bg_code).toList = [] then ""
      else "\x1b[" ++ String.intercalate ";"
          (s.attributes.map Attribute.to_code
            ++ (s.foreground.map Color.to_fg_code).toList
            ++ (s.background.map Color.to_bg_code).toList) ++ "m" := by
  rw [to_ansi_start_eq_codeList]
  unfold Style.codeList
  split <;> split <;> simp_all

/-- Claim C3: Color::to_fg_code and Color::to_bg_code on Named n (the
indexed form) are "38;5;" and "48;5;" followed by the decimal of n, and
on RGB r g b they are "38;2;r;g;b" and "48;2;r;g;b", for all 8-bit
inputs; both are total Lean functions, so there is no error case. -/
theorem C3_color_codes :
    (∀ n : Nat, n < 256 →
      Color.to_fg_code (Color.Named n) = "38;5;" ++ toString n ∧
      Color.to_bg_code (Color.Named n) = "48;5;" ++ toString n) ∧
    (∀ r g b : Nat, r < 256 → g < 256 → b < 256 →
      Color.to_fg_code (Color.RGB r g b)
        = "38;2;" ++ toString r ++ ";" ++ toString g ++ ";" ++ toString b ∧
      Color.to_bg_code (Color.RGB r g b)
        = "48;2;" ++ toString r ++ ";" ++ toString g ++ ";" ++ toString b) :=
  ⟨fun _ _ => ⟨rfl, rfl⟩, fun _ _ _ _ _ _ => ⟨rfl, rfl⟩⟩

/-- Claim C3 witness: the code equalities evaluated at the concrete
index 200 and the concrete RGB triple (255, 128, 0). -/
theorem C3_color_codes_witness :
    Color.to_fg_code (Color.Named 200) = "38;5;" ++ toString 200 ∧
    Color.to_bg_code (Color.RGB 255 128 0)
      = "48;2;" ++ toString 255 ++ ";" ++ toString 128 ++ ";" ++ toString 0 :=
  ⟨(C3_color_codes.1 200 (by decide)).1,
   (C3_color_codes.2 255 128 0 (by decide) (by decide) (by decide)).2⟩

/-- Claim C4: Attribute::to_code is the fixed total table Bold 1, Dim 2,
Italic 3, Underline 4, Blink 5, Reverse 7, Hidden 8, Strikethrough 9,
and no attribute maps to "6" (stated as a Boolean equality so the last
conjunct is quantifier-free in Prop hypotheses). -/
theorem C4_attribute_code_table :
    Attribute.to_code .Bold = "1" ∧ Attribute.to_code .Dim = "2" ∧
    Attribute.to_code .Italic = "3" ∧ Attribute.to_code .Underline = "4" ∧
    Attribute.to_code .Blink = "5" ∧ Attribute.to_code .Reverse = "7" ∧
    Attribute.to_code .Hidden = "8" ∧ Attribute.to_code .Strikethrough = "9" ∧
    ∀ a : Attribute, (Attribute.to_code a == "6") = false := by
  refine ⟨rfl, rfl, rfl, rfl, rfl, rfl, rfl, rfl, ?_⟩
  intro a
  cases a <;> decide

/-- Claim C6: under the no-color build the rendering of any Console is
exactly its text payload, both through the Display path and through
write_to into an in-memory sink, whatever the style holds. -/
theorem C6_no_color_renders_plain (c : Console) :
    Console.displayFmtNoColor c = c.text ∧
    Console.write_toNoColor memWriter c "" = .ok c.text := by
  constructor
  · simp [Console.displayFmtNoColor, Style.to_ansi_start_noColor,
      empty_string_isEmpty, String.append_empty]
  · simp [Console.write_toNoColor, Style.to_ansi_start_noColor, memWriter,
      empty_string_isEmpty, String.append_empty]

/-- Claim C8: setting the foreground twice keeps only the last value,
and the resulting Style is equal to setting it once with the last
value; likewise for the background. -/
theorem C8_last_write_wins (s : Style) (c1 c2 : Color) :
    (s.fg c1).fg c2 = s.fg c2 ∧ ((s.fg c1).fg c2).foreground = some c2 ∧
    (s.bg c1).bg c2 = s.bg c2 ∧ ((s.bg c1).bg c2).background = some c2 :=
  ⟨rfl, rfl, rfl, rfl⟩

/-- Claim C9: Console::with_text keeps the style (and so its
foreground, background and attribute sequence) and replaces only the
text payload; Console has no other field. -/
theorem C9_with_text_frame (c : Console) (t : String) :
    (c.with_text t).text = t ∧
    (c.with_text t).style = c.style ∧
    (c.with_text t).style.foreground = c.style.foreground ∧
    (c.with_text t).style.background = c.style.background ∧
    (c.with_text t).style.attributes = c.style.attributes :=
  ⟨rfl, rfl, rfl, rfl, rfl⟩

/-- Claim C5, amended: the in-memory rendering path never fails; a
streaming write_to surfaces the sink's I/O error unchanged and fails
only when the sink fails; but Console::print and Console::println
unwrap the result, panicking on a sink error instead of returning the
error value to the caller. -/
theorem C5_error_surfacing :
    (∀ c : Console, ∃ out : String,
      Console.write_to memWriter c "" = .ok out) ∧
    (∀ (ε : Type) (e : ε) (c : Console),
      Console.write_to (fun (_ : Unit) _ => Except.error e) c () = .error e) ∧
    (∀ (σ ε : Type) (wr : σ → String → Except ε σ) (c : Console) (w : σ),
      (∀ st s, ∃ st', wr st s = .ok st') →
      ∃ w', Console.write_to wr c w = .ok w') ∧
    (∀ (ε : Type) (e : ε) (c : Console),
      Console.print (fun (_ : Unit) _ => Except.error e) c () = none ∧
      Console.println (fun (_ : Unit) _ => Except.error e) c () = none) := by
  refine ⟨fun c => ⟨Console.displayFmt c, ?_⟩, ?_, ?_, ?_⟩
  · rw [write_to_memWriter_eq c "", String.empty_append]
  · intro ε e c
    cases h : (c.style.to_ansi_start).isEmpty <;>
      simp [Console.write_to, h]
  · intro σ ε wr c w H
    cases h : (c.style.to_ansi_start).isEmpty
    · obtain ⟨w1, h1⟩ := H w (c.style.to_ansi_start)
      obtain ⟨w2, h2⟩ := H w1 c.text
      obtain ⟨w3, h3⟩ := H w2 "\x1b[0m"
      exact ⟨w3, by simp [Console.write_to, h, h1, h2, h3]⟩
    · obtain ⟨w2, h2⟩ := H w c.text
      exact ⟨w2, by simp [Console.write_to, h, h2]⟩
  · intro ε e c
    constructor <;>
      cases h : (c.style.to_ansi_start).isEmpty <;>
        simp [Console.print, Console.println, Console.write_to, h]

/-- Claim C5 witness: the sink-never-fails part applied to the
in-memory appending sink with the concrete console for "hi". -/
theorem C5_error_surfacing_witness :
    ∃ w' : String,
      Console.write_to
        (fun buf s => (Except.ok (buf ++ s) : Except Unit String))
        (Console.new "hi") "" = .ok w' :=
  C5_error_surfacing.2.2.1 String Unit
    (fun buf s => (Except.ok (buf ++ s) : Except Unit String))
    (Console.new "hi") "" (fun st s => ⟨st ++ s, rfl⟩)

/-- Claim C5 counterexample: with a standard-output sink whose write
fails with error 7, Console::print and Console::println return none
(the model of the panic raised by .unwrap()); the error value is not
surfaced to the caller, contradicting the claim that the print and
println variants surface the underlying I/O error. -/
theorem C5_print_counterexample :
    Console.print (fun (_ : Unit) _ => (Except.error 7 : Except Nat Unit))
      (Console.new "hi") () = none ∧
    Console.println (fun (_ : Unit) _ => (Except.error 7 : Except Nat Unit))
      (Console.new "hi") () = none :=
  ⟨rfl, rfl⟩

/-- Claim C7: Style::attr appends without deduplication: adding an
attribute n times to any style adds exactly n occurrences of its code
to the encoded code list, so starting from the empty style the code
list holds exactly n occurrences, namely the code repeated n times. -/
theorem C7_attr_no_dedup (s : Style) (a : Attribute) (n : Nat) :
    (Style.codeList (Style.attrN s a n)).count a.to_code
      = (Style.codeList s).count a.to_code + n ∧
    (Style.codeList (Style.attrN Style.new a n)).count a.to_code = n ∧
    Style.codeList (Style.attrN Style.new a n)
      = List.replicate n a.to_code := by
  have key : ∀ (s : Style) (n : Nat),
      (Style.codeList (Style.attrN s a n)).count a.to_code
        = (Style.codeList s).count a.to_code + n := by
    intro s n
    induction n with
    | zero => rfl
    | succ n ih =>
      rw [Style.attrN, codeList_attr_count, ih]
      omega
  have rep : ∀ n : Nat,
      Style.attrN Style.new a n
        = { foreground := none, background := none,
            attributes := List.replicate n a } := by
    intro n
    induction n with
    | zero => rfl
    | succ n ih =>
      rw [Style.attrN, ih]
      simp [Style.attr, List.replicate_succ']
  refine ⟨key s n, ?_, ?_⟩
  · rw [key Style.new n]
    simp [Style.codeList, Style.new]
  · rw [rep n]
    simp [Style.codeList, List.map_replicate]

/-- Claim C10: rendering through the Display impl (Console::to_string)
and streaming through Console::write_to into an in-memory buffer agree
byte for byte: write_to appends exactly the Display string to the
buffer and never fails. -/
theorem C10_display_eq_write_to_mem (c : Console) (buf : String) :
    Console.write_to memWriter c buf = .ok (buf ++ Console.to_string c) :=
  write_to_memWriter_eq c buf

end PrettyConsole
